import Mathlib

/-!
Shallow embedding of the technical-analysis core of the
`algoedgecrypto-signals` repository: the indicator library
(`calculateSMA`, `calculateEMA`, `calculateMACD`, `calculateRSI`,
`calculateATR`) and the signal engine (`analyzeData`).

JavaScript numbers are modelled as rationals (`ℚ`); the `number | null`
array elements become `Option ℚ` with `none` for `null`.  Inside
`calculateATR` — the one function whose reachable arithmetic can produce
NaN, via out-of-range index reads and division by a zero period — a
number is modelled as `Option ℚ` with `none` for NaN, so its array
elements are `Option (Option ℚ)`: `none` for `null`, `some none` for a
NaN number, `some (some q)` for an ordinary number.  The JS write
`a[i] = v` (which appends when `i` equals the array length) is modelled
by `jsSet`.
-/

namespace AE

/-- One price bar (the TS `MarketData` record; `getTime()` of the date is
kept as an integer epoch value, the `open` field is renamed `openP`
because `open` is a Lean keyword). -/
structure MarketData where
  date : ℤ
  openP : ℚ
  high : ℚ
  low : ℚ
  close : ℚ
  volume : ℚ
deriving DecidableEq

/-- Signal direction. -/
inductive Direction where
  | BUY
  | SELL
  | HOLD
deriving DecidableEq

/-- The indicator snapshot carried inside a signal. -/
structure IndicatorData where
  ema50 : List (Option ℚ)
  ema200 : List (Option ℚ)
  macdLine : List (Option ℚ)
  signalLine : List (Option ℚ)
  histogram : List (Option ℚ)
  rsi : List (Option ℚ)
  atr : List (Option (Option ℚ))
deriving DecidableEq

/-- The engine output (the TS `Signal` minus the caller-supplied
`pair`/`timeframe` fields, exactly what `analyzeData` returns). -/
structure Signal where
  id : String
  timestamp : ℤ
  direction : Direction
  currentPrice : ℚ
  entryPrice : Option ℚ
  stopLoss : Option ℚ
  takeProfit : Option ℚ
  reasoning : List String
  indicatorData : IndicatorData
deriving DecidableEq

/-- JS array write `a[n] = v`: in-range writes update; a write one past
the end (or further) appends, intervening empty slots reading as
`undefined` (`none`). -/
def jsSet {α : Type} (l : List (Option α)) (n : ℕ) (v : Option α) : List (Option α) :=
  if n < l.length then l.set n v
  else l ++ List.replicate (n - l.length) none ++ [v]

/-- `calculateSMA` from the source: window sum over
`data.slice(i - period + 1, i + 1)` divided by `period`, `null` while
`i < period - 1`. -/
def calculateSMA (data : List ℚ) (period : ℕ) : List (Option ℚ) :=
  (List.range data.length).map (fun (i : ℕ) =>
    if (i : ℤ) < (period : ℤ) - 1 then none
    else some ((((data.drop (i + 1 - period)).take period).sum) / (period : ℚ)))

/-- The loop of `calculateEMA`: index `i` runs with `fuel` steps
remaining, `prevEma` is the mutable accumulator of the source. -/
def emaStep (data : List ℚ) (period : ℕ) (multiplier : ℚ)
    (sma : List (Option ℚ)) : ℕ → ℕ → Option ℚ → List (Option ℚ)
  | 0, _, _ => []
  | fuel + 1, i, prevEma =>
    if (i : ℤ) < (period : ℤ) - 1 then
      none :: emaStep data period multiplier sma fuel (i + 1) prevEma
    else if (i : ℤ) = (period : ℤ) - 1 then
      sma.getD i none :: emaStep data period multiplier sma fuel (i + 1) (sma.getD i none)
    else
      match prevEma with
      | some prev =>
        some ((data.getD i 0 - prev) * multiplier + prev) ::
          emaStep data period multiplier sma fuel (i + 1)
            (some ((data.getD i 0 - prev) * multiplier + prev))
      | none => none :: emaStep data period multiplier sma fuel (i + 1) none

/-- `calculateEMA` from the source: seeded by the SMA at `period - 1`,
then `(price - prevEma) * multiplier + prevEma` with
`multiplier = 2 / (period + 1)`. -/
def calculateEMA (data : List ℚ) (period : ℕ) : List (Option ℚ) :=
  emaStep data period (2 / ((period : ℚ) + 1)) (calculateSMA data period) data.length 0 none

/-- The MACD line of `calculateMACD`: `emaFast - emaSlow` where both are
defined, else `null`. -/
def macdLineOf (data : List ℚ) (fastPeriod slowPeriod : ℕ) : List (Option ℚ) :=
  (List.range data.length).map (fun i =>
    match (calculateEMA data fastPeriod).getD i none,
        (calculateEMA data slowPeriod).getD i none with
    | some f, some s => some (f - s)
    | _, _ => none)

/-- Result record of `calculateMACD`. -/
structure MACDResult where
  macdLine : List (Option ℚ)
  signalLine : List (Option ℚ)
  histogram : List (Option ℚ)
deriving DecidableEq

/-- `calculateMACD` from the source: the signal line is the EMA of the
non-null MACD values, left-padded with `null` back to the input length;
the histogram is `macdLine - signalLine` where both are defined. -/
def calculateMACD (data : List ℚ) (fastPeriod slowPeriod signalPeriod : ℕ) : MACDResult :=
  let macdLine := macdLineOf data fastPeriod slowPeriod
  let validMacdData := macdLine.filterMap id
  let signalLine :=
    List.replicate (data.length - validMacdData.length) none ++
      calculateEMA validMacdData signalPeriod
  let histogram := (List.range data.length).map (fun i =>
    match macdLine.getD i none, signalLine.getD i none with
    | some m, some s => some (m - s)
    | _, _ => none)
  ⟨macdLine, signalLine, histogram⟩

/-- The period-over-period changes of `calculateRSI`:
`data.map((price, i) => i > 0 ? price - data[i-1] : 0).slice(1)`. -/
def rsiChanges (data : List ℚ) : List ℚ :=
  ((List.range data.length).map (fun i =>
    if 0 < i then data.getD i 0 - data.getD (i - 1) 0 else 0)).drop 1

/-- Sum of the gains over the first `period` changes (the
`initialGains` accumulator of `calculateRSI`). -/
def rsiInitialGains (data : List ℚ) (period : ℕ) : ℚ :=
  (((rsiChanges data).take period).map (fun c => if 0 < c then c else 0)).sum

/-- Sum of the losses over the first `period` changes (the
`initialLosses` accumulator of `calculateRSI`). -/
def rsiInitialLosses (data : List ℚ) (period : ℕ) : ℚ :=
  (((rsiChanges data).take period).map (fun c => if 0 < c then 0 else -c)).sum

/-- `100 - 100 / (1 + rs)` with `rs = avgGain / avgLoss` when
`avgLoss > 0` and `rs = 0` otherwise — the value written into the RSI
array at each step of `calculateRSI`. -/
def rsiValue (avgGain avgLoss : ℚ) : ℚ :=
  100 - 100 / (1 + (if 0 < avgLoss then avgGain / avgLoss else 0))

/-- The Wilder-smoothing loop of `calculateRSI`; writes `rsi[i + 1]`
each iteration. -/
def rsiSetLoop (period : ℕ) (changes : List ℚ) :
    ℕ → ℕ → ℚ → ℚ → List (Option ℚ) → List (Option ℚ)
  | 0, _, _, _, rsi => rsi
  | fuel + 1, i, avgGain, avgLoss, rsi =>
    rsiSetLoop period changes fuel (i + 1)
      ((avgGain * ((period : ℚ) - 1) +
          (if 0 < changes.getD i 0 then changes.getD i 0 else 0)) / (period : ℚ))
      ((avgLoss * ((period : ℚ) - 1) +
          (if changes.getD i 0 < 0 then -(changes.getD i 0) else 0)) / (period : ℚ))
      (jsSet rsi (i + 1) (some (rsiValue
        ((avgGain * ((period : ℚ) - 1) +
            (if 0 < changes.getD i 0 then changes.getD i 0 else 0)) / (period : ℚ))
        ((avgLoss * ((period : ℚ) - 1) +
            (if changes.getD i 0 < 0 then -(changes.getD i 0) else 0)) / (period : ℚ)))))

/-- `calculateRSI` from the source: all-`null` when
`data.length <= period`, otherwise seed averages over the first
`period` changes, write `rsi[period]`, then the Wilder loop. -/
def calculateRSI (data : List ℚ) (period : ℕ) : List (Option ℚ) :=
  if data.length ≤ period then List.replicate data.length none
  else
    rsiSetLoop period (rsiChanges data) ((rsiChanges data).length - period) period
      (rsiInitialGains data period / (period : ℚ))
      (rsiInitialLosses data period / (period : ℚ))
      (jsSet (List.replicate data.length none) period
        (some (rsiValue (rsiInitialGains data period / (period : ℚ))
          (rsiInitialLosses data period / (period : ℚ)))))

/-- The running `(avgGain, avgLoss)` state of `calculateRSI`:
`rsiAvgs data period 0` is the seed pair (the initial averages over the
first `period` changes) and step `k + 1` performs one Wilder update
consuming `changes[period + k]` — exactly the state in effect when the
loop writes `rsi[period + k + 1]`. -/
def rsiAvgs (data : List ℚ) (period : ℕ) : ℕ → ℚ × ℚ
  | 0 => (rsiInitialGains data period / (period : ℚ),
          rsiInitialLosses data period / (period : ℚ))
  | k + 1 =>
    (((rsiAvgs data period k).1 * ((period : ℚ) - 1) +
        (if 0 < (rsiChanges data).getD (period + k) 0
          then (rsiChanges data).getD (period + k) 0 else 0)) / (period : ℚ),
     ((rsiAvgs data period k).2 * ((period : ℚ) - 1) +
        (if (rsiChanges data).getD (period + k) 0 < 0
          then -((rsiChanges data).getD (period + k) 0) else 0)) / (period : ℚ))

/-- The true range at index `i`:
`max(high[i] - low[i], |high[i] - close[i-1]|, |low[i] - close[i-1]|)`.
A JS read past the end of an input yields `undefined`, and any
arithmetic on it (including `Math.max`/`Math.abs`) yields NaN, modelled
as `none`. -/
def trueRange (high low close : List ℚ) (i : ℕ) : Option ℚ :=
  match high[i]?, low[i]?, close[i - 1]? with
  | some h, some l, some c => some (max (h - l) (max |h - c| |l - c|))
  | _, _, _ => none

/-- The `tr_sum += tr` accumulation of the `calculateATR` seed: starts
at 0, adds each true range in order; a NaN true range poisons the sum
from then on. -/
def nanSum (acc : Option ℚ) : List (Option ℚ) → Option ℚ
  | [] => acc
  | t :: rest =>
    nanSum (match acc, t with
      | some a, some b => some (a + b)
      | _, _ => none) rest

/-- Division by `period` as JS performs it on a NaN-or-number numerator:
NaN stays NaN, and a numerator over `period = 0` is NaN because the only
numerators `calculateATR` can divide by 0 are `0` (the empty seed sum,
and `0 / 0` is NaN in JS) or an already-NaN value from the poisoned
recurrence (a nonzero real numerator over 0, which would be `±Infinity`
in JS, cannot reach this division). -/
def divByPeriod (x : Option ℚ) (period : ℕ) : Option ℚ :=
  match x with
  | some v => if period = 0 then none else some (v / (period : ℚ))
  | none => none

/-- The Wilder-smoothing loop of `calculateATR`; writes `atr[i]` each
iteration.  The source reads the previous entry as `atr[i-1]!`: a JS
`null` there would coerce to 0 in the arithmetic (it never is `null`,
the seed having just been written), and a NaN propagates. -/
def atrLoop (high low close : List ℚ) (period : ℕ) :
    ℕ → ℕ → List (Option (Option ℚ)) → List (Option (Option ℚ))
  | 0, _, atr => atr
  | fuel + 1, i, atr =>
    atrLoop high low close period fuel (i + 1)
      (jsSet atr i (some (divByPeriod
        (match (atr.getD (i - 1) none).getD (some 0), trueRange high low close i with
         | some prev, some tr => some (prev * ((period : ℚ) - 1) + tr)
         | _, _ => none) period)))

/-- `calculateATR` from the source.  Entries are `none` for `null` and
`some none` for a NaN number.  Note the guard is
`high.length < period` (strict), so an input of length exactly `period`
reaches the seed write `atr[period]`, which in JS appends one element —
a NaN, the seed sum having read `high[period]` out of range — past the
end of the array. -/
def calculateATR (high low close : List ℚ) (period : ℕ) : List (Option (Option ℚ)) :=
  if high.length < period then List.replicate high.length none
  else
    atrLoop high low close period (high.length - (period + 1)) (period + 1)
      (jsSet (List.replicate high.length none) period
        (some (divByPeriod
          (nanSum (some 0)
            ((List.range period).map (fun j => trueRange high low close (j + 1))))
          period)))

/-- `RISK_REWARD_RATIO` from the source. -/
def riskRewardRatio : ℚ := 1.5

/-- `ATR_MULTIPLIER` from the source. -/
def atrMultiplier : ℚ := 2

/-- `closePrices` of `analyzeData`. -/
def closePricesOf (data : List MarketData) : List ℚ := data.map (·.close)

/-- `highPrices` of `analyzeData`. -/
def highPricesOf (data : List MarketData) : List ℚ := data.map (·.high)

/-- `lowPrices` of `analyzeData`. -/
def lowPricesOf (data : List MarketData) : List ℚ := data.map (·.low)

/-- `currentPrice = closePrices[len - 1] || 0` of `analyzeData`. -/
def currentPriceOf (data : List MarketData) : ℚ :=
  (closePricesOf data).getD (data.length - 1) 0

/-- `timestamp = data[len - 1]?.date.getTime() || Date.now()`; the
wall-clock fallback is the explicit `now` argument. -/
def timestampOf (now : ℤ) (data : List MarketData) : ℤ :=
  match data.getLast? with
  | some d => if d.date = 0 then now else d.date
  | none => now

/-- The `ema50` series computed by `analyzeData`. -/
def ema50Of (data : List MarketData) : List (Option ℚ) :=
  calculateEMA (closePricesOf data) 50

/-- The `ema200` series computed by `analyzeData`. -/
def ema200Of (data : List MarketData) : List (Option ℚ) :=
  calculateEMA (closePricesOf data) 200

/-- The MACD result computed by `analyzeData` (default periods 12, 26, 9). -/
def macdOf (data : List MarketData) : MACDResult :=
  calculateMACD (closePricesOf data) 12 26 9

/-- The `rsi` series computed by `analyzeData`. -/
def rsiOf (data : List MarketData) : List (Option ℚ) :=
  calculateRSI (closePricesOf data) 14

/-- The `atr` series computed by `analyzeData`. -/
def atrOf (data : List MarketData) : List (Option (Option ℚ)) :=
  calculateATR (highPricesOf data) (lowPricesOf data) (closePricesOf data) 14

/-- The `indicatorData` snapshot of `analyzeData`. -/
def indicatorDataOf (data : List MarketData) : IndicatorData :=
  ⟨ema50Of data, ema200Of data, (macdOf data).macdLine, (macdOf data).signalLine,
    (macdOf data).histogram, rsiOf data, atrOf data⟩

/-- The `baseSignal` object of `analyzeData` (the spread source of every
returned record; `direction`/`reasoning` are overwritten before return,
the place-holders here are `HOLD` and `[]`). -/
def baseSignalOf (now : ℤ) (data : List MarketData) : Signal :=
  { id := "HOLD-" ++ toString (timestampOf now data)
    timestamp := timestampOf now data
    direction := .HOLD
    currentPrice := currentPriceOf data
    entryPrice := none
    stopLoss := none
    takeProfit := none
    reasoning := []
    indicatorData := indicatorDataOf data }

/-- `currentEma50 = ema50[len - 1]`. -/
def latestEma50 (data : List MarketData) : Option ℚ :=
  (ema50Of data).getD (data.length - 1) none

/-- `currentEma200 = ema200[len - 1]`. -/
def latestEma200 (data : List MarketData) : Option ℚ :=
  (ema200Of data).getD (data.length - 1) none

/-- `currentMacd = macdLine[len - 1]`. -/
def latestMacd (data : List MarketData) : Option ℚ :=
  (macdOf data).macdLine.getD (data.length - 1) none

/-- `currentSignal = signalLine[len - 1]`. -/
def latestSignal (data : List MarketData) : Option ℚ :=
  (macdOf data).signalLine.getD (data.length - 1) none

/-- `currentRsi = rsi[len - 1]`. -/
def latestRsi (data : List MarketData) : Option ℚ :=
  (rsiOf data).getD (data.length - 1) none

/-- `currentAtr = atr[len - 1]`. -/
def latestAtr (data : List MarketData) : Option (Option ℚ) :=
  (atrOf data).getD (data.length - 1) none

/-- The number `currentAtr!` becomes in the BUY/SELL arithmetic.  A JS
`null` would coerce to 0 there (the `allDataAvailable` guard rules it
out anyway), and the inner default is for NaN — which the engine's ATR
series never contains, since its three inputs have the same length
`≥ 200 ≠ 14` (see `latestAtr_no_nan`). -/
def latestAtrVal (data : List MarketData) : ℚ :=
  ((latestAtr data).getD (some 0)).getD 0

/-- `analyzeData` from the source.  The insufficient-history guard, the
`allDataAvailable` guard (`currentPrice` is always a number, so only the
six indicator values are checked), then the BUY / SELL confluence rules.
The source's post-guard non-null assertions (`currentEma50!` etc.) are
embedded as `Option.getD _ 0` (for the ATR, `latestAtrVal`), which the
guard makes equivalent, and the
`entryPrice`/`stopLoss`/`takeProfit` lets are inlined into the returned
record. -/
def analyzeData (now : ℤ) (data : List MarketData) : Signal :=
  if data.length < 200 then
    { baseSignalOf now data with
      direction := .HOLD
      reasoning := ["Not enough data points to generate signals."] }
  else if ¬ ((latestEma50 data).isSome = true ∧ (latestEma200 data).isSome = true ∧
      (latestMacd data).isSome = true ∧ (latestSignal data).isSome = true ∧
      (latestRsi data).isSome = true ∧ (latestAtr data).isSome = true) then
    { baseSignalOf now data with
      direction := .HOLD
      reasoning := ["Indicators are still calculating."] }
  else if (latestEma50 data).getD 0 > (latestEma200 data).getD 0 ∧
      currentPriceOf data > (latestEma50 data).getD 0 ∧
      ((latestMacd data).getD 0 > (latestSignal data).getD 0 ∧
        (latestMacd data).getD 0 > 0) ∧
      (latestRsi data).getD 0 > 55 then
    { baseSignalOf now data with
      id := "BUY-" ++ toString (timestampOf now data)
      direction := .BUY
      entryPrice := some (currentPriceOf data)
      stopLoss := some (currentPriceOf data - latestAtrVal data * atrMultiplier)
      takeProfit := some (currentPriceOf data +
        (currentPriceOf data -
          (currentPriceOf data - latestAtrVal data * atrMultiplier)) * riskRewardRatio)
      reasoning :=
        ["Uptrend Confirmed: EMA (50) is above EMA (200).",
         "Bullish Price Action: Price is trading above the EMA (50).",
         "Bullish Momentum: MACD is positive and above its signal line.",
         "Strong Momentum: RSI is above 55, indicating strong buying pressure."] }
  else if (latestEma50 data).getD 0 < (latestEma200 data).getD 0 ∧
      currentPriceOf data < (latestEma50 data).getD 0 ∧
      ((latestMacd data).getD 0 < (latestSignal data).getD 0 ∧
        (latestMacd data).getD 0 < 0) ∧
      (latestRsi data).getD 0 < 45 then
    { baseSignalOf now data with
      id := "SELL-" ++ toString (timestampOf now data)
      direction := .SELL
      entryPrice := some (currentPriceOf data)
      stopLoss := some (currentPriceOf data + latestAtrVal data * atrMultiplier)
      takeProfit := some (currentPriceOf data -
        ((currentPriceOf data + latestAtrVal data * atrMultiplier) -
          currentPriceOf data) * riskRewardRatio)
      reasoning :=
        ["Downtrend Confirmed: EMA (50) is below EMA (200).",
         "Bearish Price Action: Price is trading below the EMA (50).",
         "Bearish Momentum: MACD is negative and below its signal line.",
         "Strong Momentum: RSI is below 45, indicating strong selling pressure."] }
  else
    { baseSignalOf now data with
      direction := .HOLD
      reasoning := ["No high-confluence signal conditions met. Waiting for alignment."] }

/-! ### Concrete inputs used by witnesses and counterexamples -/

/-- A strictly rising 16-bar price series (every change is `+1`, so every
running average loss is exactly 0). -/
def rsiUp16 : List ℚ := [0, 1, 2, 3, 4, 5, 6, 7, 8, 9, 10, 11, 12, 13, 14, 15]

/-- A 16-bar series that rises by 1 for 14 bars and then falls by 1:
the seed running average loss (step `k = 0`) is exactly 0 even though a
later change is negative. -/
def rsiMixed16 : List ℚ := [0, 1, 2, 3, 4, 5, 6, 7, 8, 9, 10, 11, 12, 13, 14, 13]

/-- A 15-bar series with thirteen `+2` gains and one `-2` loss, so the
seed `avgLoss` is positive. -/
def rsiLoss15 : List ℚ := [0, 2, 4, 6, 8, 10, 12, 14, 16, 18, 20, 22, 24, 26, 24]

/-- 14 bars — length exactly equal to the default ATR period. -/
def atrBug14 : List ℚ := [1, 2, 3, 4, 5, 6, 7, 8, 9, 10, 11, 12, 13, 14]

/-- Flat 15-bar high series. -/
def flatHigh15 : List ℚ := List.replicate 15 6

/-- Flat 15-bar low series. -/
def flatLow15 : List ℚ := List.replicate 15 4

/-- Flat 15-bar close series. -/
def flatClose15 : List ℚ := List.replicate 15 5

/-- A 50-bar series — fewer than the 200 bars the engine requires. -/
def holdData50 : List MarketData :=
  (List.range 50).map (fun k => ⟨(k : ℤ) + 1, 1, 2, 0, 1, 0⟩)

/-- The closing prices of the BUY-scenario series: 200 bars, flat then
volatile then strongly rising, chosen so the EMA-12/26/50, MACD and
signal-line values all stay integral (which keeps the witness evaluation
small) while all four BUY conditions hold at the last bar. -/
def buyCloses : List ℚ :=
  [1000, 1000, 1000, 1000, 1000, 1000, 1000, 1000, 1000, 1000, 1000, 1000, 1000, 1000, 1000, 1000, 1000, 1000, 1000, 1000, 1000, 1000, 1000, 1000, 1000, 1000, 1000, 1000, 1000, 1000, 1000, 1000, 1000, 1000, -755, -1506, -602, -2561, -1769, -2089, -4176, -3516, -2217, -183, -824, 1482, 1125, 1972, -583, -11548, 15017, 143917, 169525, 198671, 100801, -2315, -115668, -79611, -185952, -295703, -340806, -354320, -397175, -437014, -306699, -273235, -188052, -275730, -319964, -440302, -404052, -309452, -383178, -269486, -139271, -124114, -150246, -280254, -385111, -504686, -546022, -495069, -483009, -353878, -485775, -458049, -562545, -579189, -479195, -484831, -439865, -317939, -200369, -134341, -81361, -8989, -116406, -202784, -126714, -190999, -216688, -250968, -344062, -316356, -329485, -210781, -264679, -152559, -208913, -257023, -372412, -431366, -517226, -419110, -414262, -373957, -466447, -526874, -519062, -573873, -616014, -697345, -775239, -731644, -621113, -611658, -725693, -841100, -783504, -846302, -937940, -1026834, -1134027, -1065462, -1162649, -1112207, -1117075, -1115532, -1067164, -1017905, -1115725, -1234761, -1196197, -1187752, -1298879, -1407116, -1319835, -1414796, -1296623, -1171809, -1160876, -1050944, -884679, -771137, -833573, -700439, -595197, -604772, -459285, -410633, -453030, -361414, -369017, -348575, -299205, -323513, -295052, -141155, -103711, 30068, 145820, 276378, 320849, 424317, 572964, 720516, 897665, 1045025, 1133431, 1125284, 1276795, 1416997, 1351139, 1483603, 1629122, 1557315, 1683591, 1782752, 1829199, 1849823, 1934312, 1951408, 1976000, 2134826, 2195695, 2295318, 2427208, 2596141, 2677697, 2800176]

/-- The BUY-scenario series: 200 bars with `high = close + 1` and
`low = close - 1`. -/
def buyData : List MarketData :=
  (List.range 200).map (fun (k : ℕ) =>
    ⟨(k : ℤ) + 1, 0, buyCloses.getD k 0 + 1, buyCloses.getD k 0 - 1, buyCloses.getD k 0, 0⟩)

/-! ### Generic list helpers -/

theorem getD_replicate_none {α : Type} (n i : ℕ) :
    (List.replicate n (none : Option α)).getD i none = none := by
  rw [List.getD_eq_getElem?_getD, List.getElem?_replicate]
  split <;> rfl

theorem getD_padded_lt (k : ℕ) (vals : List ℚ) {i : ℕ} (h : i < k) :
    ((List.replicate k (none : Option ℚ) ++ vals.map some).getD i none) = none := by
  rw [List.getD_eq_getElem?_getD, List.getElem?_append,
    if_pos (by simpa using h), List.getElem?_replicate, if_pos h]
  rfl

theorem getD_padded_ge (k : ℕ) (vals : List ℚ) {i : ℕ} (h1 : k ≤ i)
    (h2 : i - k < vals.length) :
    ((List.replicate k (none : Option ℚ) ++ vals.map some).getD i none) =
      some (vals.getD (i - k) 0) := by
  rw [List.getD_eq_getElem?_getD,
    List.getElem?_append_right (by simpa using h1), List.length_replicate,
    List.getElem?_map, List.getElem?_eq_getElem h2,
    List.getD_eq_getElem?_getD, List.getElem?_eq_getElem h2]
  rfl

theorem padded_mono (k : ℕ) (vals : List ℚ) {i j : ℕ} (hij : i ≤ j)
    (hj : j < k + vals.length)
    (hi : (List.replicate k (none : Option ℚ) ++ vals.map some).getD i none ≠ none) :
    (List.replicate k (none : Option ℚ) ++ vals.map some).getD j none ≠ none := by
  by_cases hik : i < k
  · exact absurd (getD_padded_lt k vals hik) hi
  · have hkj : k ≤ j := le_trans (not_lt.mp hik) hij
    rw [getD_padded_ge k vals hkj (by omega)]
    simp

theorem getD_some_mem {α : Type} {l : List (Option α)} {n : ℕ} {v : α}
    (h : l.getD n none = some v) : some v ∈ l := by
  rw [List.getD_eq_getElem?_getD] at h
  cases h' : l[n]? with
  | none => rw [h'] at h; exact absurd h (by simp)
  | some x =>
    rw [h'] at h
    simp only [Option.getD_some] at h
    obtain ⟨hn, hx⟩ := List.getElem?_eq_some.mp h'
    rw [← h, ← hx]
    exact List.getElem_mem hn

theorem filterMap_id_replicate_none (n : ℕ) :
    (List.replicate n (none : Option ℚ)).filterMap id = [] := by
  induction n with
  | zero => rfl
  | succ m ih => simp [List.replicate_succ, ih]

/-! ### jsSet helpers -/

theorem jsSet_length_of_lt {α : Type} {l : List (Option α)} {n : ℕ} (h : n < l.length)
    (v : Option α) : (jsSet l n v).length = l.length := by
  simp [jsSet, h]

theorem jsSet_getD_self_of_lt {α : Type} {l : List (Option α)} {n : ℕ} (h : n < l.length)
    (v : Option α) : (jsSet l n v).getD n none = v := by
  simp only [jsSet, if_pos h]
  rw [List.getD_eq_getElem?_getD, List.getElem?_set_self h]
  rfl

theorem jsSet_getD_of_lt {α : Type} {l : List (Option α)} {m n : ℕ} (h : m < n)
    (v : Option α) : (jsSet l n v).getD m none = l.getD m none := by
  unfold jsSet
  split
  · rw [List.getD_eq_getElem?_getD, List.getD_eq_getElem?_getD,
      List.getElem?_set_ne (by omega)]
  · by_cases hm : m < l.length
    · rw [List.getD_eq_getElem?_getD, List.append_assoc,
        List.getElem?_append, if_pos hm, List.getD_eq_getElem?_getD]
    · rw [List.getD_eq_getElem?_getD, List.append_assoc,
        List.getElem?_append_right (by omega), List.getD_eq_getElem?_getD,
        List.getElem?_len_le (le_of_not_lt hm), List.getElem?_append,
        if_pos (by simp; omega), List.getElem?_replicate,
        if_pos (by omega)]
      rfl

theorem jsSet_mem {α : Type} {l : List (Option α)} {n : ℕ} {v x : Option α}
    (h : x ∈ jsSet l n v) : x ∈ l ∨ x = none ∨ x = v := by
  unfold jsSet at h
  split at h
  · rcases List.mem_or_eq_of_mem_set h with h' | h'
    · exact Or.inl h'
    · exact Or.inr (Or.inr h')
  · rcases List.mem_append.mp h with h' | h'
    · rcases List.mem_append.mp h' with h'' | h''
      · exact Or.inl h''
      · exact Or.inr (Or.inl (List.eq_of_mem_replicate h''))
    · simp only [List.mem_singleton] at h'
      exact Or.inr (Or.inr h')

/-! ### EMA structure lemmas -/

theorem emaStep_length (data : List ℚ) (period : ℕ) (multiplier : ℚ)
    (sma : List (Option ℚ)) :
    ∀ (fuel i : ℕ) (prev : Option ℚ),
      (emaStep data period multiplier sma fuel i prev).length = fuel := by
  intro fuel
  induction fuel with
  | zero => intro i prev; rfl
  | succ n ih =>
    intro i prev
    unfold emaStep
    split
    · simp [ih]
    · split
      · simp [ih]
      · cases prev <;> simp [ih]

theorem calculateEMA_length (data : List ℚ) (period : ℕ) :
    (calculateEMA data period).length = data.length :=
  emaStep_length data period _ _ data.length 0 none

theorem emaStep_succ (data : List ℚ) (period : ℕ) (multiplier : ℚ)
    (sma : List (Option ℚ)) (fuel i : ℕ) (prev : Option ℚ) :
    emaStep data period multiplier sma (fuel + 1) i prev =
      if (i : ℤ) < (period : ℤ) - 1 then
        none :: emaStep data period multiplier sma fuel (i + 1) prev
      else if (i : ℤ) = (period : ℤ) - 1 then
        sma.getD i none ::
          emaStep data period multiplier sma fuel (i + 1) (sma.getD i none)
      else
        match prev with
        | some p =>
          some ((data.getD i 0 - p) * multiplier + p) ::
            emaStep data period multiplier sma fuel (i + 1)
              (some ((data.getD i 0 - p) * multiplier + p))
        | none => none :: emaStep data period multiplier sma fuel (i + 1) none := rfl

theorem emaStep_getD_none_before (data : List ℚ) (period : ℕ) (multiplier : ℚ)
    (sma : List (Option ℚ)) :
    ∀ (fuel i : ℕ) (prev : Option ℚ) (k : ℕ),
      ((i + k : ℕ) : ℤ) < (period : ℤ) - 1 →
      (emaStep data period multiplier sma fuel i prev).getD k none = none := by
  intro fuel
  induction fuel with
  | zero => intro i prev k _; simp [emaStep, List.getD_nil]
  | succ n ih =>
    intro i prev k hk
    unfold emaStep
    rw [if_pos (by push_cast at hk ⊢; omega)]
    cases k with
    | zero => exact List.getD_cons_zero
    | succ k' =>
      rw [List.getD_cons_succ]
      exact ih (i + 1) prev k' (by push_cast at hk ⊢; omega)

theorem emaStep_allnone (data : List ℚ) (period : ℕ) (multiplier : ℚ)
    (sma : List (Option ℚ)) :
    ∀ (fuel i : ℕ), (period : ℤ) - 1 < (i : ℤ) →
      emaStep data period multiplier sma fuel i none = List.replicate fuel none := by
  intro fuel
  induction fuel with
  | zero => intro i _; rfl
  | succ n ih =>
    intro i hi
    unfold emaStep
    rw [if_neg (by omega), if_neg (by omega)]
    simp only [List.replicate_succ]
    exact congrArg (none :: ·) (ih (i + 1) (by push_cast at hi ⊢; omega))

theorem emaStep_short (data : List ℚ) (period : ℕ) (multiplier : ℚ)
    (sma : List (Option ℚ)) :
    ∀ (fuel i : ℕ) (prev : Option ℚ), ((i + fuel : ℕ) : ℤ) ≤ (period : ℤ) - 1 →
      emaStep data period multiplier sma fuel i prev = List.replicate fuel none := by
  intro fuel
  induction fuel with
  | zero => intro i prev _; rfl
  | succ n ih =>
    intro i prev h
    unfold emaStep
    rw [if_pos (by push_cast at h ⊢; omega)]
    simp only [List.replicate_succ]
    exact congrArg (none :: ·) (ih (i + 1) prev (by push_cast at h ⊢; omega))

theorem emaStep_allsome (data : List ℚ) (period : ℕ) (multiplier : ℚ)
    (sma : List (Option ℚ)) :
    ∀ (fuel i : ℕ) (p : ℚ), (period : ℤ) - 1 < (i : ℤ) →
      ∃ vals : List ℚ,
        emaStep data period multiplier sma fuel i (some p) = vals.map some ∧
        vals.length = fuel := by
  intro fuel
  induction fuel with
  | zero => intro i p _; exact ⟨[], rfl, rfl⟩
  | succ n ih =>
    intro i p hi
    obtain ⟨vals, hv, hl⟩ :=
      ih (i + 1) ((data.getD i 0 - p) * multiplier + p) (by push_cast at hi ⊢; omega)
    refine ⟨((data.getD i 0 - p) * multiplier + p) :: vals, ?_, by simp [hl]⟩
    rw [emaStep_succ, if_neg (by omega), if_neg (by omega)]
    show some ((data.getD i 0 - p) * multiplier + p) ::
        emaStep data period multiplier sma n (i + 1)
          (some ((data.getD i 0 - p) * multiplier + p)) =
      List.map some (((data.getD i 0 - p) * multiplier + p) :: vals)
    rw [List.map_cons, hv]

theorem emaStep_preseed (data : List ℚ) (period : ℕ) (multiplier : ℚ)
    (sma : List (Option ℚ)) :
    ∀ (k fuel i : ℕ) (prev : Option ℚ), i + k + 1 = period →
      emaStep data period multiplier sma (k + fuel) i prev =
        List.replicate k none ++ emaStep data period multiplier sma fuel (i + k) prev := by
  intro k
  induction k with
  | zero => intro fuel i prev _; simp
  | succ n ih =>
    intro fuel i prev h
    have h1 : n + 1 + fuel = (n + fuel) + 1 := by omega
    rw [h1, emaStep_succ, if_pos (by omega),
      ih fuel (i + 1) prev (by omega)]
    have h2 : (i + 1) + n = i + (n + 1) := by omega
    rw [h2]
    simp [List.replicate_succ]

theorem sma_getD_seed (data : List ℚ) (period : ℕ) (h1 : 1 ≤ period)
    (h2 : period ≤ data.length) :
    (calculateSMA data period).getD (period - 1) none =
      some ((data.take period).sum / (period : ℚ)) := by
  unfold calculateSMA
  rw [List.getD_eq_getElem?_getD, List.getElem?_map,
    List.getElem?_range (by omega)]
  simp only [Option.map_some']
  rw [if_neg (by push_cast [Nat.cast_sub h1]; omega)]
  have h3 : period - 1 + 1 - period = 0 := by omega
  rw [h3, List.drop_zero]
  rfl

theorem calculateEMA_shape_full (data : List ℚ) (period : ℕ) (h1 : 1 ≤ period)
    (h2 : period ≤ data.length) :
    ∃ vals : List ℚ,
      calculateEMA data period =
        List.replicate (period - 1) none ++ vals.map some ∧
      vals.length = data.length - (period - 1) := by
  have key := emaStep_preseed data period (2 / ((period : ℚ) + 1))
    (calculateSMA data period) (period - 1) (data.length - period + 1) 0 none (by omega)
  have hlen : (period - 1) + (data.length - period + 1) = data.length := by omega
  rw [hlen, Nat.zero_add] at key
  rw [emaStep_succ, if_neg (by push_cast [Nat.cast_sub h1]; omega),
    if_pos (by push_cast [Nat.cast_sub h1]; omega),
    sma_getD_seed data period h1 h2] at key
  obtain ⟨vals, hv, hl⟩ := emaStep_allsome data period (2 / ((period : ℚ) + 1))
    (calculateSMA data period) (data.length - period)
    (period - 1 + 1) ((data.take period).sum / (period : ℚ))
    (by push_cast [Nat.cast_sub h1]; omega)
  rw [hv] at key
  refine ⟨((data.take period).sum / (period : ℚ)) :: vals, ?_, ?_⟩
  · rw [calculateEMA, key, List.map_cons]
  · simp only [List.length_cons, hl]
    omega

theorem calculateEMA_allnone_short (data : List ℚ) (period : ℕ)
    (h : data.length < period) :
    calculateEMA data period = List.replicate data.length none := by
  unfold calculateEMA
  exact emaStep_short data period _ _ data.length 0 none (by push_cast; omega)

theorem calculateEMA_zero (data : List ℚ) :
    calculateEMA data 0 = List.replicate data.length none := by
  unfold calculateEMA
  exact emaStep_allnone data 0 _ _ data.length 0 (by norm_num)

theorem calculateEMA_shape (data : List ℚ) (period : ℕ) :
    ∃ (k : ℕ) (vals : List ℚ),
      calculateEMA data period = List.replicate k none ++ vals.map some := by
  rcases Nat.eq_zero_or_pos period with h0 | h1
  · exact ⟨data.length, [], by simp [h0, calculateEMA_zero]⟩
  · by_cases h2 : period ≤ data.length
    · obtain ⟨vals, hv, _⟩ := calculateEMA_shape_full data period h1 h2
      exact ⟨period - 1, vals, hv⟩
    · exact ⟨data.length, [], by simp [calculateEMA_allnone_short data period (by omega)]⟩

theorem calculateEMA_getD_isSome (data : List ℚ) (period i : ℕ) (h1 : 1 ≤ period)
    (h2 : period - 1 ≤ i) (h3 : i < data.length) :
    ((calculateEMA data period).getD i none).isSome = true := by
  obtain ⟨vals, hv, hl⟩ := calculateEMA_shape_full data period h1 (by omega)
  rw [hv, getD_padded_ge (period - 1) vals h2 (by omega)]
  rfl

/-! ### MACD structure lemmas -/

theorem calculateMACD_macdLine (data : List ℚ) (f s p : ℕ) :
    (calculateMACD data f s p).macdLine = macdLineOf data f s := rfl

theorem calculateMACD_signalLine (data : List ℚ) (f s p : ℕ) :
    (calculateMACD data f s p).signalLine =
      List.replicate (data.length - ((macdLineOf data f s).filterMap id).length) none ++
        calculateEMA ((macdLineOf data f s).filterMap id) p := rfl

theorem macdLineOf_allnone (data : List ℚ) (f s : ℕ) (h : data.length < s) :
    macdLineOf data f s = List.replicate data.length none := by
  rw [List.eq_replicate_iff]
  refine ⟨by simp [macdLineOf], ?_⟩
  intro b hb
  unfold macdLineOf at hb
  obtain ⟨i, hi, rfl⟩ := List.mem_map.mp hb
  have h26 : (calculateEMA data s).getD i none = none := by
    rw [calculateEMA_allnone_short data s h, getD_replicate_none]
  rw [h26]
  rcases h' : (calculateEMA data f).getD i none with _ | v <;> rfl

theorem macd_shape (data : List ℚ) :
    ∃ (k : ℕ) (suffix : List ℚ),
      (calculateMACD data 12 26 9).macdLine =
        List.replicate k none ++ suffix.map some ∧
      (calculateMACD data 12 26 9).signalLine =
        List.replicate k none ++ calculateEMA suffix 9 ∧
      (26 ≤ data.length → k = 25 ∧ suffix.length = data.length - 25) := by
  by_cases hlen : 26 ≤ data.length
  · obtain ⟨v12, h12, l12⟩ := calculateEMA_shape_full data 12 (by norm_num) (by omega)
    obtain ⟨v26, h26, l26⟩ := calculateEMA_shape_full data 26 (by norm_num) (by omega)
    have hml : macdLineOf data 12 26 =
        List.replicate 25 none ++
          ((List.range (data.length - 25)).map
            (fun j => v12.getD (j + 14) 0 - v26.getD j 0)).map some := by
      unfold macdLineOf
      have hsplit : List.range data.length =
          List.range 25 ++ (List.range (data.length - 25)).map (fun x => 25 + x) := by
        rw [← List.range_add]
        congr 1
        omega
      rw [hsplit, List.map_append]
      congr 1
      · rw [List.eq_replicate_iff]
        refine ⟨by simp, ?_⟩
        intro b hb
        obtain ⟨i, hi, rfl⟩ := List.mem_map.mp hb
        have hi' : i < 25 := List.mem_range.mp hi
        rw [h26]
        have h11 : (11 : ℕ) = 26 - 1 - 14 := rfl
        rw [getD_padded_lt (26 - 1) v26 (by omega)]
        rcases h' : (calculateEMA data 12).getD i none with _ | v <;> rfl
      · rw [List.map_map, List.map_map]
        refine List.map_congr_left ?_
        intro j hj
        have hj' : j < data.length - 25 := List.mem_range.mp hj
        simp only [Function.comp]
        rw [h12, h26, getD_padded_ge (12 - 1) v12 (by omega) (by omega),
          getD_padded_ge (26 - 1) v26 (by omega) (by omega)]
        have e1 : 25 + j - (12 - 1) = j + 14 := by omega
        have e2 : 25 + j - (26 - 1) = j := by omega
        rw [e1, e2]
    have hfm : (macdLineOf data 12 26).filterMap id =
        (List.range (data.length - 25)).map
          (fun j => v12.getD (j + 14) 0 - v26.getD j 0) := by
      rw [hml, List.filterMap_append, filterMap_id_replicate_none,
        List.filterMap_map]
      have hcomp : (id ∘ (some : ℚ → Option ℚ)) = some := rfl
      rw [hcomp, List.filterMap_some, List.nil_append]
    refine ⟨25, (List.range (data.length - 25)).map
      (fun j => v12.getD (j + 14) 0 - v26.getD j 0), ?_, ?_, fun _ => ⟨rfl, by simp⟩⟩
    · rw [calculateMACD_macdLine, hml]
    · rw [calculateMACD_signalLine, hfm]
      have h25 : data.length -
          ((List.range (data.length - 25)).map
            (fun j => v12.getD (j + 14) 0 - v26.getD j 0)).length = 25 := by
        simp
        omega
      rw [h25]
  · refine ⟨data.length, [], ?_, ?_, fun h => absurd h hlen⟩
    · rw [calculateMACD_macdLine, macdLineOf_allnone data 12 26 (by omega)]
      simp
    · rw [calculateMACD_signalLine, macdLineOf_allnone data 12 26 (by omega),
        filterMap_id_replicate_none]
      simp

theorem macd_getD_last_isSome (data : List ℚ) (h : 34 ≤ data.length) :
    (((calculateMACD data 12 26 9).macdLine.getD (data.length - 1) none).isSome = true) ∧
    (((calculateMACD data 12 26 9).signalLine.getD (data.length - 1) none).isSome = true) := by
  obtain ⟨k, suffix, hm, hs, hk⟩ := macd_shape data
  obtain ⟨hk25, hsl⟩ := hk (by omega)
  subst hk25
  constructor
  · rw [hm, getD_padded_ge 25 suffix (by omega) (by omega)]
    rfl
  · rw [hs]
    obtain ⟨w, hw, hwl⟩ := calculateEMA_shape_full suffix 9 (by norm_num) (by omega)
    have h8 : (9 : ℕ) - 1 = 8 := rfl
    rw [h8] at hw hwl
    rw [hw, ← List.append_assoc, ← List.replicate_add,
      getD_padded_ge (25 + 8) w (by omega) (by omega)]
    rfl

/-! ### RSI lemmas -/

theorem rsiSetLoop_zero (period : ℕ) (changes : List ℚ) (i : ℕ) (g l : ℚ)
    (rsi : List (Option ℚ)) : rsiSetLoop period changes 0 i g l rsi = rsi := rfl

theorem rsiSetLoop_succ (period : ℕ) (changes : List ℚ) (fuel i : ℕ) (g l : ℚ)
    (rsi : List (Option ℚ)) :
    rsiSetLoop period changes (fuel + 1) i g l rsi =
      rsiSetLoop period changes fuel (i + 1)
        ((g * ((period : ℚ) - 1) +
            (if 0 < changes.getD i 0 then changes.getD i 0 else 0)) / (period : ℚ))
        ((l * ((period : ℚ) - 1) +
            (if changes.getD i 0 < 0 then -(changes.getD i 0) else 0)) / (period : ℚ))
        (jsSet rsi (i + 1) (some (rsiValue
          ((g * ((period : ℚ) - 1) +
              (if 0 < changes.getD i 0 then changes.getD i 0 else 0)) / (period : ℚ))
          ((l * ((period : ℚ) - 1) +
              (if changes.getD i 0 < 0 then -(changes.getD i 0) else 0)) / (period : ℚ))))) :=
  rfl

theorem rsiSetLoop_getD_le (period : ℕ) (changes : List ℚ) :
    ∀ (fuel i : ℕ) (g l : ℚ) (rsi : List (Option ℚ)) (j : ℕ), j ≤ i →
      (rsiSetLoop period changes fuel i g l rsi).getD j none = rsi.getD j none := by
  intro fuel
  induction fuel with
  | zero => intro i g l rsi j hj; rfl
  | succ n ih =>
    intro i g l rsi j hj
    rw [rsiSetLoop_succ, ih (i + 1) _ _ _ j (by omega), jsSet_getD_of_lt (by omega)]

theorem calculateRSI_getD_seed (data : List ℚ) (period : ℕ)
    (h : period < data.length) :
    (calculateRSI data period).getD period none =
      some (rsiValue (rsiAvgs data period 0).1 (rsiAvgs data period 0).2) := by
  unfold calculateRSI
  rw [if_neg (by omega), rsiSetLoop_getD_le period _ _ period _ _ _ period (le_refl period),
    jsSet_getD_self_of_lt (by simpa using h)]
  rfl

theorem rsiSetLoop_getD_avgs (data : List ℚ) (period : ℕ) :
    ∀ (k s fuel : ℕ) (rsi : List (Option ℚ)), k < fuel →
      period + s + k + 1 < rsi.length →
      (rsiSetLoop period (rsiChanges data) fuel (period + s)
          (rsiAvgs data period s).1 (rsiAvgs data period s).2 rsi).getD
        (period + s + k + 1) none =
      some (rsiValue (rsiAvgs data period (s + k + 1)).1
        (rsiAvgs data period (s + k + 1)).2) := by
  intro k
  induction k with
  | zero =>
    intro s fuel rsi hk hlen
    obtain ⟨f, rfl⟩ : ∃ f, fuel = f + 1 := ⟨fuel - 1, by omega⟩
    simp only [Nat.add_zero] at hlen ⊢
    rw [rsiSetLoop_succ,
      rsiSetLoop_getD_le period _ f (period + s + 1) _ _ _ (period + s + 1) (le_refl _),
      jsSet_getD_self_of_lt (by omega)]
    rfl
  | succ m ih =>
    intro s fuel rsi hk hlen
    obtain ⟨f, rfl⟩ : ∃ f, fuel = f + 1 := ⟨fuel - 1, by omega⟩
    rw [rsiSetLoop_succ]
    have h1 : period + s + (m + 1) + 1 = period + (s + 1) + m + 1 := by omega
    have h2 : s + (m + 1) + 1 = (s + 1) + m + 1 := by omega
    rw [h1, h2]
    exact ih (s + 1) f _ (by omega)
      (by rw [jsSet_length_of_lt (by omega)]; omega)

theorem ite_gain_nonneg (c : ℚ) : 0 ≤ if 0 < c then c else 0 := by
  split
  · linarith
  · exact le_refl 0

theorem ite_loss_nonneg (c : ℚ) : 0 ≤ if c < 0 then -c else 0 := by
  split
  · linarith
  · exact le_refl 0

theorem ite_loss_nonneg' (c : ℚ) : 0 ≤ if 0 < c then 0 else -c := by
  split
  · exact le_refl 0
  · rename_i h
    push_neg at h
    linarith

theorem avgStep_nonneg (period : ℕ) {a extra : ℚ} (ha : 0 ≤ a) (he : 0 ≤ extra) :
    0 ≤ (a * ((period : ℚ) - 1) + extra) / (period : ℚ) := by
  rcases Nat.eq_zero_or_pos period with h0 | h1
  · subst h0
    simp
  · have hp : (1 : ℚ) ≤ (period : ℚ) := by exact_mod_cast h1
    refine div_nonneg (add_nonneg (mul_nonneg ha (by linarith)) he) (by linarith)

theorem rsiValue_bounds {g l : ℚ} (hg : 0 ≤ g) (hl : 0 ≤ l) :
    0 ≤ rsiValue g l ∧ rsiValue g l ≤ 100 := by
  unfold rsiValue
  set rs := if 0 < l then g / l else 0 with hrs
  have h0 : 0 ≤ rs := by
    rw [hrs]
    split
    · exact div_nonneg hg hl
    · exact le_refl 0
  have h1 : (0 : ℚ) < 1 + rs := by linarith
  constructor
  · have hle : 100 / (1 + rs) ≤ 100 := by
      rw [div_le_iff₀ h1]
      nlinarith
    linarith
  · have hpos : 0 < 100 / (1 + rs) := div_pos (by norm_num) h1
    linarith

theorem rsiValue_avgLoss_zero (g : ℚ) : rsiValue g 0 = 0 := by
  norm_num [rsiValue]

theorem rsiInitialGains_nonneg (data : List ℚ) (period : ℕ) :
    0 ≤ rsiInitialGains data period := by
  refine List.sum_nonneg ?_
  intro x hx
  obtain ⟨c, _, rfl⟩ := List.mem_map.mp hx
  exact ite_gain_nonneg c

theorem rsiInitialLosses_nonneg (data : List ℚ) (period : ℕ) :
    0 ≤ rsiInitialLosses data period := by
  refine List.sum_nonneg ?_
  intro x hx
  obtain ⟨c, _, rfl⟩ := List.mem_map.mp hx
  exact ite_loss_nonneg' c

theorem rsiSetLoop_bounds_mem (period : ℕ) (changes : List ℚ) :
    ∀ (fuel i : ℕ) (g l : ℚ) (rsi : List (Option ℚ)), 0 ≤ g → 0 ≤ l →
      (∀ x ∈ rsi, x = none ∨ ∃ u, x = some u ∧ 0 ≤ u ∧ u ≤ 100) →
      ∀ x ∈ rsiSetLoop period changes fuel i g l rsi,
        x = none ∨ ∃ u, x = some u ∧ 0 ≤ u ∧ u ≤ 100 := by
  intro fuel
  induction fuel with
  | zero => intro i g l rsi _ _ hinv x hx; exact hinv x hx
  | succ n ih =>
    intro i g l rsi hg hl hinv x hx
    rw [rsiSetLoop_succ] at hx
    have hg' := avgStep_nonneg period hg (ite_gain_nonneg (changes.getD i 0))
    have hl' := avgStep_nonneg period hl (ite_loss_nonneg (changes.getD i 0))
    refine ih (i + 1) _ _ _ hg' hl' ?_ x hx
    intro y hy
    rcases jsSet_mem hy with h' | h' | h'
    · exact hinv y h'
    · exact Or.inl h'
    · right
      exact ⟨_, h', (rsiValue_bounds hg' hl').1, (rsiValue_bounds hg' hl').2⟩

theorem calculateRSI_mem_bounds (data : List ℚ) (period : ℕ) :
    ∀ x ∈ calculateRSI data period, x = none ∨ ∃ u, x = some u ∧ 0 ≤ u ∧ u ≤ 100 := by
  unfold calculateRSI
  split
  · intro x hx
    exact Or.inl (List.eq_of_mem_replicate hx)
  · have hg0 : 0 ≤ rsiInitialGains data period / (period : ℚ) :=
      div_nonneg (rsiInitialGains_nonneg data period) (by positivity)
    have hl0 : 0 ≤ rsiInitialLosses data period / (period : ℚ) :=
      div_nonneg (rsiInitialLosses_nonneg data period) (by positivity)
    refine rsiSetLoop_bounds_mem period (rsiChanges data) _ period _ _ _ hg0 hl0 ?_
    intro x hx
    rcases jsSet_mem hx with h' | h' | h'
    · exact Or.inl (List.eq_of_mem_replicate h')
    · exact Or.inl h'
    · right
      exact ⟨_, h', (rsiValue_bounds hg0 hl0).1, (rsiValue_bounds hg0 hl0).2⟩

theorem rsiChanges_length (data : List ℚ) :
    (rsiChanges data).length = data.length - 1 := by
  simp [rsiChanges]

theorem rsiSetLoop_getD_isSome (period : ℕ) (changes : List ℚ) :
    ∀ (fuel i : ℕ) (g l : ℚ) (rsi : List (Option ℚ)),
      i + fuel + 1 < rsi.length →
      ((rsiSetLoop period changes (fuel + 1) i g l rsi).getD (i + fuel + 1) none).isSome
        = true := by
  intro fuel
  induction fuel with
  | zero =>
    intro i g l rsi hlen
    rw [rsiSetLoop_succ, rsiSetLoop_zero, Nat.add_zero] at *
    rw [jsSet_getD_self_of_lt (by omega)]
    rfl
  | succ n ih =>
    intro i g l rsi hlen
    rw [rsiSetLoop_succ]
    have h2 : i + (n + 1) + 1 = (i + 1) + n + 1 := by omega
    rw [h2]
    apply ih (i + 1)
    rw [jsSet_length_of_lt (by omega)]
    omega

theorem rsi_getD_last_isSome (data : List ℚ) (period : ℕ)
    (h : period + 2 ≤ data.length) :
    ((calculateRSI data period).getD (data.length - 1) none).isSome = true := by
  unfold calculateRSI
  rw [if_neg (by omega)]
  have hcl : (rsiChanges data).length = data.length - 1 := rsiChanges_length data
  have hf : (rsiChanges data).length - period = (data.length - 2 - period) + 1 := by
    omega
  rw [hf]
  have hidx : data.length - 1 = period + (data.length - 2 - period) + 1 := by omega
  rw [hidx]
  apply rsiSetLoop_getD_isSome
  rw [jsSet_length_of_lt (by simp; omega)]
  simp
  omega

/-! ### ATR lemmas -/

theorem atrLoop_zero (high low close : List ℚ) (period i : ℕ)
    (atr : List (Option (Option ℚ))) : atrLoop high low close period 0 i atr = atr := rfl

theorem atrLoop_succ (high low close : List ℚ) (period fuel i : ℕ)
    (atr : List (Option (Option ℚ))) :
    atrLoop high low close period (fuel + 1) i atr =
      atrLoop high low close period fuel (i + 1)
        (jsSet atr i (some (divByPeriod
          (match (atr.getD (i - 1) none).getD (some 0), trueRange high low close i with
           | some prev, some tr => some (prev * ((period : ℚ) - 1) + tr)
           | _, _ => none) period))) := rfl

theorem divByPeriod_some (v : ℚ) (period : ℕ) (hp : 1 ≤ period) :
    divByPeriod (some v) period = some (v / (period : ℚ)) := by
  simp only [divByPeriod]
  rw [if_neg (by omega)]

theorem trueRange_some_nonneg (high low close : List ℚ) (i : ℕ)
    (hi : i < high.length) (hl : low.length = high.length)
    (hc : close.length = high.length) :
    ∃ t, trueRange high low close i = some t ∧ 0 ≤ t := by
  have h1 : i < low.length := by omega
  have h2 : i - 1 < close.length := by omega
  have e1 := List.getElem?_eq_getElem hi
  have e2 := List.getElem?_eq_getElem h1
  have e3 := List.getElem?_eq_getElem h2
  refine ⟨max (high[i] - low[i]) (max |high[i] - close[i - 1]| |low[i] - close[i - 1]|),
    ?_, ?_⟩
  · simp only [trueRange, e1, e2, e3]
  · exact le_trans (abs_nonneg _) (le_trans (le_max_left _ _) (le_max_right _ _))

theorem nanSum_some_nonneg :
    ∀ (l : List (Option ℚ)) (a : ℚ), 0 ≤ a →
      (∀ x ∈ l, ∃ t, x = some t ∧ 0 ≤ t) →
      ∃ s, nanSum (some a) l = some s ∧ 0 ≤ s := by
  intro l
  induction l with
  | nil => intro a ha _; exact ⟨a, rfl, ha⟩
  | cons t rest ih =>
    intro a ha hall
    obtain ⟨tv, htv, htv0⟩ := hall t (List.mem_cons_self t rest)
    rw [htv]
    exact ih (a + tv) (by linarith) (fun x hx => hall x (List.mem_cons_of_mem t hx))

theorem atrLoop_inv (high low close : List ℚ) (period : ℕ) (hp : 1 ≤ period)
    (hl : low.length = high.length) (hc : close.length = high.length) :
    ∀ (fuel i : ℕ) (atr : List (Option (Option ℚ))),
      fuel + i ≤ high.length →
      (∀ x ∈ atr, x = none ∨ ∃ q, x = some (some q) ∧ 0 ≤ q) →
      ∀ x ∈ atrLoop high low close period fuel i atr,
        x = none ∨ ∃ q, x = some (some q) ∧ 0 ≤ q := by
  intro fuel
  induction fuel with
  | zero => intro i atr _ hinv x hx; exact hinv x hx
  | succ n ih =>
    intro i atr hfi hinv x hx
    rw [atrLoop_succ] at hx
    have hprev : ∃ p, (atr.getD (i - 1) none).getD (some 0) = some p ∧ 0 ≤ p := by
      cases hpv : atr.getD (i - 1) none with
      | none => exact ⟨0, rfl, le_refl 0⟩
      | some u =>
        rcases hinv _ (getD_some_mem hpv) with h' | ⟨q, hq, hq0⟩
        · exact absurd h' (by simp)
        · simp only [Option.some.injEq] at hq
          exact ⟨q, by rw [Option.getD_some, hq], hq0⟩
    obtain ⟨p, hpe, hp0⟩ := hprev
    obtain ⟨t, hte, ht0⟩ :=
      trueRange_some_nonneg high low close i (by omega) hl hc
    have hpq : (1 : ℚ) ≤ (period : ℚ) := by exact_mod_cast hp
    have hwrite : (match (atr.getD (i - 1) none).getD (some 0),
        trueRange high low close i with
      | some prev, some tr => some (prev * ((period : ℚ) - 1) + tr)
      | _, _ => (none : Option ℚ)) = some (p * ((period : ℚ) - 1) + t) := by
      rw [hpe, hte]
    refine ih (i + 1) _ (by omega) ?_ x hx
    intro y hy
    rcases jsSet_mem hy with h' | h' | h'
    · exact hinv y h'
    · exact Or.inl h'
    · right
      refine ⟨(p * ((period : ℚ) - 1) + t) / (period : ℚ), ?_, ?_⟩
      · rw [h', hwrite, divByPeriod_some _ _ hp]
      · exact div_nonneg (add_nonneg (mul_nonneg hp0 (by linarith)) ht0) (by linarith)

theorem calculateATR_mem_nonneg (high low close : List ℚ) (period : ℕ)
    (hp : 1 ≤ period) (hne : high.length ≠ period)
    (hl : low.length = high.length) (hc : close.length = high.length) :
    ∀ x ∈ calculateATR high low close period,
      x = none ∨ ∃ q, x = some (some q) ∧ 0 ≤ q := by
  unfold calculateATR
  split
  · intro x hx
    exact Or.inl (List.eq_of_mem_replicate hx)
  · rename_i hguard
    have hlen : period < high.length := by omega
    obtain ⟨s, hse, hs0⟩ :
        ∃ s, nanSum (some 0) ((List.range period).map
          (fun j => trueRange high low close (j + 1))) = some s ∧ 0 ≤ s := by
      refine nanSum_some_nonneg _ 0 (le_refl 0) ?_
      intro x hx
      obtain ⟨j, hj, rfl⟩ := List.mem_map.mp hx
      have hj' : j < period := List.mem_range.mp hj
      exact trueRange_some_nonneg high low close (j + 1) (by omega) hl hc
    refine atrLoop_inv high low close period hp hl hc _ _ _ (by omega) ?_
    intro x hx
    rcases jsSet_mem hx with h' | h' | h'
    · exact Or.inl (List.eq_of_mem_replicate h')
    · exact Or.inl h'
    · right
      refine ⟨s / (period : ℚ), ?_, div_nonneg hs0 (by positivity)⟩
      rw [h', hse, divByPeriod_some _ _ hp]

theorem latestAtr_no_nan (data : List MarketData) (h : 200 ≤ data.length) :
    latestAtr data = none ∨ ∃ q, latestAtr data = some (some q) ∧ 0 ≤ q := by
  cases hv : latestAtr data with
  | none => exact Or.inl rfl
  | some u =>
    unfold latestAtr atrOf at hv
    have hmem := getD_some_mem hv
    have hh : (highPricesOf data).length = data.length := List.length_map _ _
    rcases calculateATR_mem_nonneg (highPricesOf data) (lowPricesOf data)
        (closePricesOf data) 14 (by omega)
        (by rw [hh]; omega)
        (by simp [lowPricesOf, highPricesOf])
        (by simp [closePricesOf, highPricesOf]) _ hmem with h' | ⟨q, hq, hq0⟩
    · exact absurd h' (by simp)
    · simp only [Option.some.injEq] at hq
      exact Or.inr ⟨q, by rw [hq], hq0⟩

theorem atrLoop_getD_isSome (high low close : List ℚ) (period : ℕ) :
    ∀ (fuel i : ℕ) (atr : List (Option (Option ℚ))), i + fuel < atr.length →
      ((atrLoop high low close period (fuel + 1) i atr).getD (i + fuel) none).isSome
        = true := by
  intro fuel
  induction fuel with
  | zero =>
    intro i atr hlen
    rw [atrLoop_succ, atrLoop_zero, Nat.add_zero] at *
    rw [jsSet_getD_self_of_lt (by omega)]
    rfl
  | succ n ih =>
    intro i atr hlen
    rw [atrLoop_succ]
    have h2 : i + (n + 1) = (i + 1) + n := by omega
    rw [h2]
    apply ih (i + 1)
    rw [jsSet_length_of_lt (by omega)]
    omega

theorem atr_getD_last_isSome (high low close : List ℚ) (period : ℕ)
    (h : period + 2 ≤ high.length) :
    ((calculateATR high low close period).getD (high.length - 1) none).isSome
      = true := by
  unfold calculateATR
  rw [if_neg (by omega)]
  have hf : high.length - (period + 1) = (high.length - period - 2) + 1 := by omega
  rw [hf]
  have hidx : high.length - 1 = (period + 1) + (high.length - period - 2) := by omega
  rw [hidx]
  apply atrLoop_getD_isSome
  rw [jsSet_length_of_lt (by simp; omega)]
  simp
  omega

/-! ### Signal-engine lemmas -/

theorem latest_all_isSome (data : List MarketData) (h : 200 ≤ data.length) :
    (latestEma50 data).isSome = true ∧ (latestEma200 data).isSome = true ∧
    (latestMacd data).isSome = true ∧ (latestSignal data).isSome = true ∧
    (latestRsi data).isSome = true ∧ (latestAtr data).isSome = true := by
  have hc : (closePricesOf data).length = data.length := List.length_map _ _
  have hh : (highPricesOf data).length = data.length := List.length_map _ _
  have hmacd := macd_getD_last_isSome (closePricesOf data) (by omega)
  rw [hc] at hmacd
  refine ⟨?_, ?_, hmacd.1, hmacd.2, ?_, ?_⟩
  · unfold latestEma50 ema50Of
    exact calculateEMA_getD_isSome _ 50 _ (by norm_num) (by omega) (by omega)
  · unfold latestEma200 ema200Of
    exact calculateEMA_getD_isSome _ 200 _ (by norm_num) (by omega) (by omega)
  · unfold latestRsi rsiOf
    have := rsi_getD_last_isSome (closePricesOf data) 14 (by omega)
    rwa [hc] at this
  · unfold latestAtr atrOf
    have := atr_getD_last_isSome (highPricesOf data) (lowPricesOf data)
      (closePricesOf data) 14 (by omega)
    rwa [hh] at this

/-! ### Claim theorems -/

set_option maxRecDepth 40000 in
set_option maxHeartbeats 1000000 in
/-- C1 counterexample: on the strictly rising series `rsiUp16` the seed
running average loss is exactly 0, yet `calculateRSI` produces 0 at the
first defined index — not 100 as the claim states (`rs = 0` makes
`100 - 100 / (1 + rs)` equal 0). -/
theorem rsi_avgLoss_zero_counterexample :
    rsiInitialLosses rsiUp16 14 = 0 ∧
    (calculateRSI rsiUp16 14).getD 14 none = some 0 ∧
    (calculateRSI rsiUp16 14).getD 14 none ≠ some 100 := by
  with_unfolding_all decide

/-- C1 (amended): at any RSI step where the running average loss is
exactly 0 — the seed step `k = 0` or any later Wilder step `k`, with
`rsiAvgs` the running `(avgGain, avgLoss)` state the source maintains —
`rs` is taken to be 0 by convention and the value `calculateRSI` writes
at the step's index `period + k` is 0, not 100. -/
theorem rsi_avgLoss_zero_gives_zero (data : List ℚ) (period k : ℕ)
    (hk : period + k < data.length)
    (hz : (rsiAvgs data period k).2 = 0) :
    (calculateRSI data period).getD (period + k) none = some 0 := by
  have hval : (calculateRSI data period).getD (period + k) none =
      some (rsiValue (rsiAvgs data period k).1 (rsiAvgs data period k).2) := by
    cases k with
    | zero =>
      simpa using calculateRSI_getD_seed data period (by omega)
    | succ m =>
      unfold calculateRSI
      rw [if_neg (by omega)]
      have hrl : (jsSet (List.replicate data.length (none : Option ℚ)) period
          (some (rsiValue (rsiInitialGains data period / (period : ℚ))
            (rsiInitialLosses data period / (period : ℚ))))).length = data.length := by
        rw [jsSet_length_of_lt (by simp; omega)]
        simp
      have H := rsiSetLoop_getD_avgs data period m 0
        ((rsiChanges data).length - period)
        (jsSet (List.replicate data.length (none : Option ℚ)) period
          (some (rsiValue (rsiInitialGains data period / (period : ℚ))
            (rsiInitialLosses data period / (period : ℚ)))))
        (by rw [rsiChanges_length]; omega) (by rw [hrl]; omega)
      simpa using H
  rw [hval, hz, rsiValue_avgLoss_zero]

set_option maxRecDepth 40000 in
set_option maxHeartbeats 1000000 in
/-- C1 witness: the amended theorem applied at the seed step of
`rsiMixed16`, whose first 14 changes are all gains (so the running
average loss at step 0 is exactly 0) while a later change is a loss. -/
theorem rsi_avgLoss_zero_gives_zero_witness :
    (rsiAvgs rsiMixed16 14 0).2 = 0 ∧
    (calculateRSI rsiMixed16 14).getD 14 none = some 0 :=
  ⟨by with_unfolding_all decide,
   rsi_avgLoss_zero_gives_zero rsiMixed16 14 0 (by decide)
     (by with_unfolding_all decide)⟩

set_option maxRecDepth 40000 in
set_option maxHeartbeats 1000000 in
/-- C2 (code bug): `calculateATR` applied to inputs of length exactly
`period` (the guard is `high.length < period`, not `<=`) reads past the
end of its inputs and writes `atr[period]`, one slot past the end of the
output array, returning 15 elements for a 14-element input instead of an
equal-length series. -/
theorem atr_length_bug_at_period_length :
    atrBug14.length = 14 ∧
    (calculateATR atrBug14 atrBug14 atrBug14 14).length = 15 := by
  with_unfolding_all decide

/-- C4: with fewer than 200 bars `analyzeData` returns HOLD with the
single "not enough data points" reasoning entry, no entry/stop/target,
and the computed indicator snapshot carried through. -/
theorem analyzeData_insufficient_history (now : ℤ) (data : List MarketData)
    (h : data.length < 200) :
    (analyzeData now data).direction = Direction.HOLD ∧
    (analyzeData now data).reasoning = ["Not enough data points to generate signals."] ∧
    (analyzeData now data).entryPrice = none ∧
    (analyzeData now data).stopLoss = none ∧
    (analyzeData now data).takeProfit = none ∧
    (analyzeData now data).indicatorData = indicatorDataOf data := by
  unfold analyzeData
  rw [if_pos h]
  exact ⟨rfl, rfl, rfl, rfl, rfl, rfl⟩

/-- C4 witness: the 50-bar scenario from the specification. -/
theorem analyzeData_insufficient_history_witness :
    (analyzeData 0 holdData50).direction = Direction.HOLD ∧
    (analyzeData 0 holdData50).reasoning =
      ["Not enough data points to generate signals."] ∧
    (analyzeData 0 holdData50).entryPrice = none ∧
    (analyzeData 0 holdData50).stopLoss = none ∧
    (analyzeData 0 holdData50).takeProfit = none ∧
    (analyzeData 0 holdData50).indicatorData = indicatorDataOf holdData50 :=
  analyzeData_insufficient_history 0 holdData50 (by decide)

/-- C5: the signal line returned by `calculateMACD` (periods 12, 26, 9)
is the 9-period EMA of the contiguous defined suffix of the MACD line,
left-padded with `none` back to the input length: the MACD line is `k`
undefined entries followed by an all-defined suffix, and the signal line
is `k` undefined entries followed by `calculateEMA suffix 9`, whose
total length is the original series length. -/
theorem macd_signal_suffix_aligned (data : List ℚ) :
    ∃ (k : ℕ) (suffix : List ℚ),
      (calculateMACD data 12 26 9).macdLine =
        List.replicate k none ++ suffix.map some ∧
      (calculateMACD data 12 26 9).signalLine =
        List.replicate k none ++ calculateEMA suffix 9 ∧
      (calculateMACD data 12 26 9).signalLine.length = data.length := by
  obtain ⟨k, suffix, h1, h2, _⟩ := macd_shape data
  refine ⟨k, suffix, h1, h2, ?_⟩
  have hm := congrArg List.length h1
  rw [calculateMACD_macdLine] at hm
  simp only [macdLineOf, List.length_map, List.length_range, List.length_append,
    List.length_replicate] at hm
  have hsig := congrArg List.length h2
  simp only [List.length_append, List.length_replicate, calculateEMA_length] at hsig
  omega

/-- C6: `analyzeData` is a total function: for every input (any length,
any shape) it returns a well-formed `Signal` whose reasoning list is
never empty, and on degenerate inputs (fewer than 200 bars, including
the empty series) the direction is HOLD. -/
theorem analyzeData_total_wellformed (now : ℤ) (data : List MarketData) :
    (analyzeData now data).reasoning ≠ [] ∧
    (data.length < 200 → (analyzeData now data).direction = Direction.HOLD) := by
  constructor
  · unfold analyzeData
    split_ifs <;> simp
  · intro h
    unfold analyzeData
    rw [if_pos h]

/-- C6 witness: the empty series. -/
theorem analyzeData_total_wellformed_witness :
    (analyzeData 0 []).reasoning ≠ [] ∧
    (analyzeData 0 []).direction = Direction.HOLD :=
  ⟨(analyzeData_total_wellformed 0 []).1,
   (analyzeData_total_wellformed 0 []).2 (by decide)⟩

/-- C7: EMA definedness is monotone: every position before the warm-up
index `period - 1` is undefined, and once a value is defined at index
`i`, every later in-range index `j` is defined as well. -/
theorem ema_definedness_monotone (data : List ℚ) (period : ℕ) :
    (∀ i : ℕ, (i : ℤ) < (period : ℤ) - 1 →
      (calculateEMA data period).getD i none = none) ∧
    (∀ i j : ℕ, i ≤ j → j < data.length →
      (calculateEMA data period).getD i none ≠ none →
      (calculateEMA data period).getD j none ≠ none) := by
  constructor
  · intro i hi
    unfold calculateEMA
    exact emaStep_getD_none_before data period _ _ data.length 0 none i (by omega)
  · intro i j hij hj hi
    obtain ⟨k, vals, hshape⟩ := calculateEMA_shape data period
    rw [hshape] at hi ⊢
    have hlen := congrArg List.length hshape
    rw [calculateEMA_length] at hlen
    simp only [List.length_append, List.length_replicate, List.length_map] at hlen
    exact padded_mono k vals hij (by omega) hi

set_option maxRecDepth 40000 in
set_option maxHeartbeats 1000000 in
/-- C7 witness: on `[1, 2, 3]` with period 2, index 0 (before warm-up)
is undefined and definedness at index 1 propagates to index 2. -/
theorem ema_definedness_monotone_witness :
    (calculateEMA [1, 2, 3] 2).getD 0 none = none ∧
    (calculateEMA [1, 2, 3] 2).getD 2 none ≠ none :=
  ⟨(ema_definedness_monotone [1, 2, 3] 2).1 0 (by decide),
   (ema_definedness_monotone [1, 2, 3] 2).2 1 2 (by decide) (by decide)
     (by with_unfolding_all decide)⟩

/-- C8: every defined value of `calculateRSI` lies in `[0, 100]`, for
every input series and every period. -/
theorem rsi_defined_in_bounds (data : List ℚ) (period i : ℕ) (v : ℚ)
    (h : (calculateRSI data period).getD i none = some v) : 0 ≤ v ∧ v ≤ 100 := by
  rcases calculateRSI_mem_bounds data period _ (getD_some_mem h) with h' | ⟨u, hu, h0, h1⟩
  · exact absurd h' (by simp)
  · simp only [Option.some.injEq] at hu
    rw [hu]
    exact ⟨h0, h1⟩

set_option maxRecDepth 40000 in
set_option maxHeartbeats 1000000 in
/-- C8 witness: on `rsiLoss15` the RSI value at index 14 is `650/7`,
which the theorem places in `[0, 100]`. -/
theorem rsi_defined_in_bounds_witness :
    0 ≤ (650 / 7 : ℚ) ∧ (650 / 7 : ℚ) ≤ 100 :=
  rsi_defined_in_bounds rsiLoss15 14 14 (650 / 7) (by with_unfolding_all decide)

set_option maxRecDepth 40000 in
set_option maxHeartbeats 1000000 in
/-- C9 counterexample: the claim quantifies over every period, but at
`period = 0` the seed is the empty sum divided by 0 — `0 / 0`, NaN in
JS — and the Wilder recurrence keeps dividing a NaN numerator by 0, so
every entry of the output is a defined (non-`null`) NaN: a defined value
that is not a nonnegative number.  (Input length exactly `period` also
produces a defined NaN entry, from the out-of-range seed reads.) -/
theorem atr_period_zero_nan_counterexample :
    ((calculateATR [5, 6] [5, 6] [5, 6] 0).getD 1 none).isSome = true ∧
    ∀ q : ℚ, (calculateATR [5, 6] [5, 6] [5, 6] 0).getD 1 none ≠ some (some q) := by
  have e : (calculateATR [5, 6] [5, 6] [5, 6] 0).getD 1 none = some none := by
    with_unfolding_all decide
  refine ⟨by rw [e]; rfl, ?_⟩
  intro q h
  rw [e] at h
  exact Option.noConfusion (Option.some.inj h)

/-- C9 (amended): for every positive period and parallel (equal-length)
high/low/close inputs whose common length is not exactly `period`, every
defined entry of `calculateATR` is an ordinary (non-NaN) number that is
nonnegative.  At `period = 0` the entries are NaN (see the
counterexample), and at input length exactly `period` the one defined
entry is the NaN appended past the end of the array. -/
theorem atr_defined_nonneg (high low close : List ℚ) (period : ℕ)
    (hp : 1 ≤ period) (hne : high.length ≠ period)
    (hl : low.length = high.length) (hc : close.length = high.length)
    (x : Option (Option ℚ)) (hx : x ∈ calculateATR high low close period)
    (hd : x ≠ none) : ∃ q, x = some (some q) ∧ 0 ≤ q := by
  rcases calculateATR_mem_nonneg high low close period hp hne hl hc x hx with h' | h'
  · exact absurd h' hd
  · exact h'

set_option maxRecDepth 40000 in
set_option maxHeartbeats 1000000 in
/-- C9 witness: a flat 15-bar market with a constant true range of 2 and
period 14: the defined entry (value 2, at index 14) is an ordinary
nonnegative number. -/
theorem atr_defined_nonneg_witness :
    some (some (2 : ℚ)) ∈ calculateATR flatHigh15 flatLow15 flatClose15 14 ∧
    ∃ q, (some (some (2 : ℚ)) : Option (Option ℚ)) = some (some q) ∧ 0 ≤ q :=
  ⟨by with_unfolding_all decide,
   atr_defined_nonneg flatHigh15 flatLow15 flatClose15 14 (by decide) (by decide)
     (by decide) (by decide) (some (some 2)) (by with_unfolding_all decide)
     (by decide)⟩

/-- C10: for every series of at least 200 bars the six latest indicator
values `analyzeData` inspects are all defined, and consequently the
"Indicators are still calculating." HOLD branch is never taken for any
input whatsoever — that reasoning string is never produced. -/
theorem indicators_ready_at_200 (now : ℤ) (data : List MarketData) :
    (analyzeData now data).reasoning ≠ ["Indicators are still calculating."] ∧
    (200 ≤ data.length →
      (latestEma50 data).isSome = true ∧ (latestEma200 data).isSome = true ∧
      (latestMacd data).isSome = true ∧ (latestSignal data).isSome = true ∧
      (latestRsi data).isSome = true ∧ (latestAtr data).isSome = true) := by
  constructor
  · by_cases h : data.length < 200
    · unfold analyzeData
      rw [if_pos h]
      simp
    · push_neg at h
      have hall := latest_all_isSome data h
      unfold analyzeData
      rw [if_neg (not_lt.mpr h), if_neg (not_not_intro hall)]
      split_ifs <;> simp
  · exact fun h => latest_all_isSome data h

/-- C3: on at least 200 bars with all six latest indicator values
defined, the BUY rule is a strict conjunction of the four conditions:
when they all hold `analyzeData` fires BUY with
`entryPrice = currentPrice`, `stopLoss = entryPrice - ATR * 2`,
`takeProfit = entryPrice + (entryPrice - stopLoss) * 1.5` and exactly
the four reasoning lines in the fixed order; when any of them fails the
direction is not BUY. -/
theorem analyzeData_buy_rule (now : ℤ) (data : List MarketData)
    (hlen : 200 ≤ data.length)
    (h50 : (latestEma50 data).isSome = true)
    (h200 : (latestEma200 data).isSome = true)
    (hm : (latestMacd data).isSome = true)
    (hs : (latestSignal data).isSome = true)
    (hr : (latestRsi data).isSome = true)
    (ha : (latestAtr data).isSome = true) :
    (((latestEma50 data).getD 0 > (latestEma200 data).getD 0 ∧
      currentPriceOf data > (latestEma50 data).getD 0 ∧
      ((latestMacd data).getD 0 > (latestSignal data).getD 0 ∧
        (latestMacd data).getD 0 > 0) ∧
      (latestRsi data).getD 0 > 55) →
      ((analyzeData now data).direction = Direction.BUY ∧
       (analyzeData now data).entryPrice = some (currentPriceOf data) ∧
       (analyzeData now data).stopLoss =
         some (currentPriceOf data - latestAtrVal data * atrMultiplier) ∧
       (analyzeData now data).takeProfit =
         some (currentPriceOf data +
           (currentPriceOf data -
             (currentPriceOf data - latestAtrVal data * atrMultiplier)) *
             riskRewardRatio) ∧
       (analyzeData now data).reasoning =
         ["Uptrend Confirmed: EMA (50) is above EMA (200).",
          "Bullish Price Action: Price is trading above the EMA (50).",
          "Bullish Momentum: MACD is positive and above its signal line.",
          "Strong Momentum: RSI is above 55, indicating strong buying pressure."])) ∧
    ((¬ ((latestEma50 data).getD 0 > (latestEma200 data).getD 0 ∧
      currentPriceOf data > (latestEma50 data).getD 0 ∧
      ((latestMacd data).getD 0 > (latestSignal data).getD 0 ∧
        (latestMacd data).getD 0 > 0) ∧
      (latestRsi data).getD 0 > 55)) →
      (analyzeData now data).direction ≠ Direction.BUY) := by
  have hnl : ¬ data.length < 200 := not_lt.mpr hlen
  have hall : (latestEma50 data).isSome = true ∧ (latestEma200 data).isSome = true ∧
      (latestMacd data).isSome = true ∧ (latestSignal data).isSome = true ∧
      (latestRsi data).isSome = true ∧ (latestAtr data).isSome = true :=
    ⟨h50, h200, hm, hs, hr, ha⟩
  constructor
  · intro hc
    unfold analyzeData
    rw [if_neg hnl, if_neg (not_not_intro hall), if_pos hc]
    exact ⟨rfl, rfl, rfl, rfl, rfl⟩
  · intro hc
    unfold analyzeData
    rw [if_neg hnl, if_neg (not_not_intro hall), if_neg hc]
    split_ifs
    · exact fun h => Direction.noConfusion h
    · exact fun h => Direction.noConfusion h

theorem buyData_length : buyData.length = 200 := by
  simp [buyData]

set_option maxRecDepth 80000 in
set_option maxHeartbeats 8000000 in
set_option synthInstance.maxHeartbeats 2000000 in
set_option synthInstance.maxSize 4000 in
theorem buyData_evaluations :
    ((0 ≤ ((ema50Of buyData).getD 55 none).getD 0 ∨ ((ema50Of buyData).getD 55 none).getD 0 < 0) ∧
    (0 ≤ ((ema50Of buyData).getD 70 none).getD 0 ∨ ((ema50Of buyData).getD 70 none).getD 0 < 0) ∧
    (0 ≤ ((ema50Of buyData).getD 85 none).getD 0 ∨ ((ema50Of buyData).getD 85 none).getD 0 < 0) ∧
    (0 ≤ ((ema50Of buyData).getD 100 none).getD 0 ∨ ((ema50Of buyData).getD 100 none).getD 0 < 0) ∧
    (0 ≤ ((ema50Of buyData).getD 115 none).getD 0 ∨ ((ema50Of buyData).getD 115 none).getD 0 < 0) ∧
    (0 ≤ ((ema50Of buyData).getD 130 none).getD 0 ∨ ((ema50Of buyData).getD 130 none).getD 0 < 0) ∧
    (0 ≤ ((ema50Of buyData).getD 145 none).getD 0 ∨ ((ema50Of buyData).getD 145 none).getD 0 < 0) ∧
    (0 ≤ ((ema50Of buyData).getD 160 none).getD 0 ∨ ((ema50Of buyData).getD 160 none).getD 0 < 0) ∧
    (0 ≤ ((ema50Of buyData).getD 175 none).getD 0 ∨ ((ema50Of buyData).getD 175 none).getD 0 < 0) ∧
    (0 ≤ ((ema50Of buyData).getD 190 none).getD 0 ∨ ((ema50Of buyData).getD 190 none).getD 0 < 0) ∧
    (0 ≤ (((macdOf buyData).macdLine).getD 30 none).getD 0 ∨ (((macdOf buyData).macdLine).getD 30 none).getD 0 < 0) ∧
    (0 ≤ (((macdOf buyData).macdLine).getD 45 none).getD 0 ∨ (((macdOf buyData).macdLine).getD 45 none).getD 0 < 0) ∧
    (0 ≤ (((macdOf buyData).macdLine).getD 60 none).getD 0 ∨ (((macdOf buyData).macdLine).getD 60 none).getD 0 < 0) ∧
    (0 ≤ (((macdOf buyData).macdLine).getD 75 none).getD 0 ∨ (((macdOf buyData).macdLine).getD 75 none).getD 0 < 0) ∧
    (0 ≤ (((macdOf buyData).macdLine).getD 90 none).getD 0 ∨ (((macdOf buyData).macdLine).getD 90 none).getD 0 < 0) ∧
    (0 ≤ (((macdOf buyData).macdLine).getD 105 none).getD 0 ∨ (((macdOf buyData).macdLine).getD 105 none).getD 0 < 0) ∧
    (0 ≤ (((macdOf buyData).macdLine).getD 120 none).getD 0 ∨ (((macdOf buyData).macdLine).getD 120 none).getD 0 < 0) ∧
    (0 ≤ (((macdOf buyData).macdLine).getD 135 none).getD 0 ∨ (((macdOf buyData).macdLine).getD 135 none).getD 0 < 0) ∧
    (0 ≤ (((macdOf buyData).macdLine).getD 150 none).getD 0 ∨ (((macdOf buyData).macdLine).getD 150 none).getD 0 < 0) ∧
    (0 ≤ (((macdOf buyData).macdLine).getD 165 none).getD 0 ∨ (((macdOf buyData).macdLine).getD 165 none).getD 0 < 0) ∧
    (0 ≤ (((macdOf buyData).macdLine).getD 180 none).getD 0 ∨ (((macdOf buyData).macdLine).getD 180 none).getD 0 < 0) ∧
    (0 ≤ (((macdOf buyData).macdLine).getD 195 none).getD 0 ∨ (((macdOf buyData).macdLine).getD 195 none).getD 0 < 0) ∧
    (0 ≤ (((macdOf buyData).signalLine).getD 40 none).getD 0 ∨ (((macdOf buyData).signalLine).getD 40 none).getD 0 < 0) ∧
    (0 ≤ (((macdOf buyData).signalLine).getD 55 none).getD 0 ∨ (((macdOf buyData).signalLine).getD 55 none).getD 0 < 0) ∧
    (0 ≤ (((macdOf buyData).signalLine).getD 70 none).getD 0 ∨ (((macdOf buyData).signalLine).getD 70 none).getD 0 < 0) ∧
    (0 ≤ (((macdOf buyData).signalLine).getD 85 none).getD 0 ∨ (((macdOf buyData).signalLine).getD 85 none).getD 0 < 0) ∧
    (0 ≤ (((macdOf buyData).signalLine).getD 100 none).getD 0 ∨ (((macdOf buyData).signalLine).getD 100 none).getD 0 < 0) ∧
    (0 ≤ (((macdOf buyData).signalLine).getD 115 none).getD 0 ∨ (((macdOf buyData).signalLine).getD 115 none).getD 0 < 0) ∧
    (0 ≤ (((macdOf buyData).signalLine).getD 130 none).getD 0 ∨ (((macdOf buyData).signalLine).getD 130 none).getD 0 < 0) ∧
    (0 ≤ (((macdOf buyData).signalLine).getD 145 none).getD 0 ∨ (((macdOf buyData).signalLine).getD 145 none).getD 0 < 0) ∧
    (0 ≤ (((macdOf buyData).signalLine).getD 160 none).getD 0 ∨ (((macdOf buyData).signalLine).getD 160 none).getD 0 < 0) ∧
    (0 ≤ (((macdOf buyData).signalLine).getD 175 none).getD 0 ∨ (((macdOf buyData).signalLine).getD 175 none).getD 0 < 0) ∧
    (0 ≤ (((macdOf buyData).signalLine).getD 190 none).getD 0 ∨ (((macdOf buyData).signalLine).getD 190 none).getD 0 < 0) ∧
    (0 ≤ ((rsiOf buyData).getD 20 none).getD 0 ∨ ((rsiOf buyData).getD 20 none).getD 0 < 0) ∧
    (0 ≤ ((rsiOf buyData).getD 35 none).getD 0 ∨ ((rsiOf buyData).getD 35 none).getD 0 < 0) ∧
    (0 ≤ ((rsiOf buyData).getD 50 none).getD 0 ∨ ((rsiOf buyData).getD 50 none).getD 0 < 0) ∧
    (0 ≤ ((rsiOf buyData).getD 65 none).getD 0 ∨ ((rsiOf buyData).getD 65 none).getD 0 < 0) ∧
    (0 ≤ ((rsiOf buyData).getD 80 none).getD 0 ∨ ((rsiOf buyData).getD 80 none).getD 0 < 0) ∧
    (0 ≤ ((rsiOf buyData).getD 95 none).getD 0 ∨ ((rsiOf buyData).getD 95 none).getD 0 < 0) ∧
    (0 ≤ ((rsiOf buyData).getD 110 none).getD 0 ∨ ((rsiOf buyData).getD 110 none).getD 0 < 0) ∧
    (0 ≤ ((rsiOf buyData).getD 125 none).getD 0 ∨ ((rsiOf buyData).getD 125 none).getD 0 < 0) ∧
    (0 ≤ ((rsiOf buyData).getD 140 none).getD 0 ∨ ((rsiOf buyData).getD 140 none).getD 0 < 0) ∧
    (0 ≤ ((rsiOf buyData).getD 155 none).getD 0 ∨ ((rsiOf buyData).getD 155 none).getD 0 < 0) ∧
    (0 ≤ ((rsiOf buyData).getD 170 none).getD 0 ∨ ((rsiOf buyData).getD 170 none).getD 0 < 0) ∧
    (0 ≤ ((rsiOf buyData).getD 185 none).getD 0 ∨ ((rsiOf buyData).getD 185 none).getD 0 < 0)) ∧
    ((latestEma50 buyData).getD 0 > (latestEma200 buyData).getD 0 ∧
      currentPriceOf buyData > (latestEma50 buyData).getD 0 ∧
      ((latestMacd buyData).getD 0 > (latestSignal buyData).getD 0 ∧
        (latestMacd buyData).getD 0 > 0) ∧
      (latestRsi buyData).getD 0 > 55) := by
  with_unfolding_all decide

/-- C3 witness: on the 200-bar rising series `buyData` all four BUY
conditions hold and `analyzeData` fires BUY. -/
theorem analyzeData_buy_rule_witness :
    (analyzeData 0 buyData).direction = Direction.BUY :=
  ((analyzeData_buy_rule 0 buyData (by rw [buyData_length])
      (latest_all_isSome buyData (by rw [buyData_length])).1
      (latest_all_isSome buyData (by rw [buyData_length])).2.1
      (latest_all_isSome buyData (by rw [buyData_length])).2.2.1
      (latest_all_isSome buyData (by rw [buyData_length])).2.2.2.1
      (latest_all_isSome buyData (by rw [buyData_length])).2.2.2.2.1
      (latest_all_isSome buyData (by rw [buyData_length])).2.2.2.2.2).1
    buyData_evaluations.2).1

/-- C10 witness: the 200-bar series `buyData` has all six latest
indicator values defined, and the "still calculating" reasoning is not
produced. -/
theorem indicators_ready_at_200_witness :
    (analyzeData 0 buyData).reasoning ≠ ["Indicators are still calculating."] ∧
    ((latestEma50 buyData).isSome = true ∧ (latestEma200 buyData).isSome = true ∧
     (latestMacd buyData).isSome = true ∧ (latestSignal buyData).isSome = true ∧
     (latestRsi buyData).isSome = true ∧ (latestAtr buyData).isSome = true) :=
  ⟨(indicators_ready_at_200 0 buyData).1,
   (indicators_ready_at_200 0 buyData).2 (by rw [buyData_length])⟩

end AE
